import Mathlib

/-!
Verification of the command/event dispatch core of the Nano IRC bot
(Commander, Postmaster, Auth session store).

Strings are modelled as lists of characters (`Str`).  Python behaviours that
matter here are embedded explicitly: `str.lower` on ASCII, `str.strip`,
`str.lstrip(">>>")` (which strips every leading `>` character), truthiness of
reply values, dict insertion with overwrite, and the two option regular
expressions of `src/commander.py` (`^\-([a-zA-Z])$` and
`^\-\-([a-zA-Z]*)="?(.+)"?$`, embedded for newline-free tokens with the
greedy-match semantics of the Python `re` module).
-/

/-- Python strings, modelled as lists of characters. -/
abbrev Str := List Char

/-- Conversion from Lean string literals to the model. -/
def strL (s : String) : Str := s.data

/-- Python `str.lower()` on ASCII data (`Char.toLower` maps exactly the range
from uppercase A to uppercase Z). -/
def pyLowerL (s : Str) : Str := s.map Char.toLower

/-- Whitespace characters recognised by Python `str.strip()` and `str.split()`
on ASCII data. -/
def isPyWs (c : Char) : Bool :=
  c = ' ' || c = '\t' || c = '\n' || c = '\r' || c = Char.ofNat 11 || c = Char.ofNat 12

/-- Python `str.strip()`: remove leading and trailing whitespace. -/
def pyStrip (s : Str) : Str :=
  ((s.dropWhile isPyWs).reverse.dropWhile isPyWs).reverse

/-- Python `str.lstrip(">>>")`: removes every leading `>` character (the
argument of `lstrip` is a character set, not a prefix). -/
def pyLStripGT (s : Str) : Str := s.dropWhile (fun c => c = '>')

/-- Whitespace splitting, as done by Python `str.split()` with no argument:
runs of whitespace separate tokens and produce no empty tokens.  This is also
the behaviour of `shlex.split` on strings free of quotes and backslashes, and
serves as the concrete tokenizer in witnesses. -/
def wsSplitGo : Str → Str → List Str
  | [], cur => if cur = [] then [] else [cur.reverse]
  | c :: rest, cur =>
      if isPyWs c then
        if cur = [] then wsSplitGo rest [] else cur.reverse :: wsSplitGo rest []
      else wsSplitGo rest (c :: cur)

/-- Whitespace splitting entry point. -/
def wsSplit (s : Str) : List Str := wsSplitGo s []

/-- Value stored in the parsed options dictionary: `True` for toggle options,
a string for valued options. -/
inductive OptVal where
  | flag (b : Bool)
  | str (s : Str)
deriving DecidableEq, Repr

/-- Python dict from option names to option values, as an association list in
insertion order. -/
abbrev Dict := List (Str × OptVal)

/-- Python dict assignment `d[k] = v`: overwrite in place when the key exists,
otherwise append. -/
def dictSet (d : Dict) (k : Str) (v : OptVal) : Dict :=
  if d.any (fun p => p.1 = k) then
    d.map (fun p => if p.1 = k then (k, v) else p)
  else d ++ [(k, v)]

/-- Python dict lookup `d[k]`, as an option. -/
def dictGet (d : Dict) (k : Str) : Option OptVal :=
  (d.find? (fun p => p.1 = k)).map (·.2)

/-- The short option pattern of `src/commander.py`:  `^\-([a-zA-Z])$`.
Matches a dash followed by exactly one ASCII letter and returns that letter. -/
def shortOptMatch : Str → Option Char
  | [d, c] => if d = '-' ∧ c.isAlpha then some c else none
  | _ => none

/-- The long option pattern of `src/commander.py`:
`^\-\-([a-zA-Z]*)="?(.+)"?$` with the greedy semantics of Python `re`:
after the two dashes, the maximal (possibly empty) run of ASCII letters is the
name and must be followed by `=`; the value is everything after the `=`,
except that one leading double quote is dropped when more text follows it.
Because `(.+)` is greedy and the final `"?` may match the empty string, a
trailing double quote is part of the value. -/
def longOptMatch : Str → Option (Str × Str)
  | d1 :: d2 :: rest =>
      if d1 = '-' ∧ d2 = '-' then
        let name := rest.takeWhile Char.isAlpha
        match rest.dropWhile Char.isAlpha with
        | e :: v =>
            if e = '=' then
              if v = [] then none
              else if v.head? = some '"' then
                if v.tail = [] then some (name, v) else some (name, v.tail)
              else some (name, v)
            else none
        | [] => none
      else none
  | _ => none

/-- A token is consumed as an option when either pattern matches. -/
def isOptTok (t : Str) : Bool :=
  (shortOptMatch t).isSome || (longOptMatch t).isSome

/-- The token loop of `Commander._parse_command_string`
(src/src/commander.py, lines 148-174): each token is tested against the short
pattern, then the long pattern; matched tokens go into the options dict with
lower-cased keys (and lower-cased values for long options) and are removed
from the positional stream; all other tokens are appended to the positional
arguments in order. -/
def pcsGo : List Str → List Str → Dict → List Str × Dict
  | [], args, opts => (args, opts)
  | t :: rest, args, opts =>
      match shortOptMatch t with
      | some c => pcsGo rest args (dictSet opts [c.toLower] (OptVal.flag true))
      | none =>
          match longOptMatch t with
          | some nv => pcsGo rest args (dictSet opts (pyLowerL nv.1) (OptVal.str (pyLowerL nv.2)))
          | none => pcsGo rest (args ++ [t]) opts

/-- `Commander._parse_command_string` applied to an already tokenized command
string (the result of `shlex.split` after the trigger has been stripped). -/
def parseCommandString (tokens : List Str) : List Str × Dict :=
  pcsGo tokens [] []

/-- Result of `Commander._parse_command_arguments`. -/
structure ParsedArgs where
  plugin : Str
  command : Option Str
  args : List Str
  helpCommand : Bool
deriving DecidableEq, Repr

/-- `Commander._parse_command_arguments` (src/src/commander.py, lines
179-227).  The registry check `loaded` receives lower-cased names, exactly as
the source passes entries of `args_lower` to `PluginManager.is_loaded`.  The
source deletes entries from `args` but never refreshes `args_lower`, so the
sub-plugin probe always joins the first two tokens of the original list;
`none` models the `PluginNotLoadedError` raise. -/
def parseCommandArguments (loaded : Str → Bool) (args0 : List Str) :
    Option ParsedArgs :=
  let helpCommand : Bool :=
    match args0 with
    | t :: _ => decide (pyLowerL t = strL "help")
    | [] => false
  let args1 := if helpCommand then args0.tail else args0
  let lower := args1.map pyLowerL
  let s1 : Option Str × List Str :=
    match lower with
    | a0 :: _ => if loaded a0 then (some a0, args1.tail) else (none, args1)
    | [] => (none, args1)
  let s2 : Option Str × List Str :=
    match lower with
    | a0 :: a1 :: _ =>
        let sub := a0 ++ strL "." ++ a1
        if loaded sub then (some sub, s1.2.tail) else s1
    | _ => s1
  match s2.1 with
  | none => none
  | some p =>
      match s2.2 with
      | c :: rest => some ⟨p, some c, rest, helpCommand⟩
      | [] => some ⟨p, none, [], helpCommand⟩

/-- One element of a handler reply: a bare string, or an explicit
`(destination, message)` tuple. -/
inductive RItem where
  | str (s : Str)
  | tup (dest msg : Str)
deriving DecidableEq, Repr

/-- A handler reply value: Python `None`, a single string or tuple, or a list
of strings and tuples. -/
inductive Reply where
  | pyNone
  | item (i : RItem)
  | list (l : List RItem)
deriving DecidableEq, Repr

/-- Python truthiness of a reply value: `None` and the empty string and the
empty list are falsy; a tuple (being a nonempty tuple) is always truthy. -/
def Reply.truthy : Reply → Bool
  | .pyNone => false
  | .item (.str s) => !(s = [])
  | .item (.tup _ _) => true
  | .list l => !(l = [])

/-- The kind of a recognized command-level error
(src/plugins/exceptions.py). -/
inductive CmdErrKind where
  | notEnough
  | tooMany
  | invalidForm
  | permDenied
deriving DecidableEq, Repr

/-- A raised Python exception, as visible to the dispatch core. -/
inductive PyExc where
  | commandError (kind : CmdErrKind) (errorMessage : Str) (dest : Str)
  | validationError (errorMessage : Str) (dest : Str)
  | pluginNotLoaded
  | otherExc (name : Str)
deriving DecidableEq, Repr

/-- Default destination of a command error reply
(src/plugins/exceptions.py, `CommandError.__init__`): `public_message` for a
public invocation, `private_message` otherwise. -/
def errorDestination (public : Bool) : Str :=
  if public then strL "public_message" else strL "private_message"

/-- Decimal rendering of a number for message formatting. -/
def natStr (n : Nat) : Str := (toString n).data

/-- The default user-facing message of `NotEnoughArgumentsError`
(src/plugins/exceptions.py, lines 44-57), after `str.format` has substituted
the minimum argument count and the documented syntax line. -/
def notEnoughArgumentsMessage (minArgs : Option Nat) (usage : Option Str) : Str :=
  let part1 :=
    match minArgs with
    | some m =>
        if m ≠ 0 then
          strL "This command requires at least <strong>" ++ natStr m
            ++ strL "</strong> arguments. "
        else strL "You did not provide enough arguments for this command. "
    | none => strL "You did not provide enough arguments for this command. "
  let part2 :=
    match usage with
    | some u => strL "Syntax: <strong>" ++ u ++ strL "</strong>"
    | none => strL "If you need help, please try running \"help <plugin> <command>\""
  part1 ++ part2

/-- `Commander._help_execute` (src/src/commander.py, lines 94-127): pick the
`main` entry when no command was named, the command entry when it exists, and
fall back to human-readable not-found messages.  An absent or empty help dict
(Python falsy) produces the no-entries message. -/
def helpExecute (pluginLoaded : Bool) (commandsHelp : Option (List (Str × Str)))
    (plugin : Str) (command : Option Str) : Str :=
  let ch := if pluginLoaded then commandsHelp else none
  let chL := match ch with | some l => l | none => []
  if chL ≠ [] then
    match command with
    | none =>
        match (chL.find? (fun p => p.1 = strL "main")).map (·.2) with
        | some e => e
        | none =>
            strL "Either no help entry is available for <strong>None</strong> or the command does not exist"
    | some c =>
        match (chL.find? (fun p => p.1 = c)).map (·.2) with
        | some e => e
        | none =>
            strL "Either no help entry is available for <strong>" ++ c
              ++ strL "</strong> or the command does not exist"
  else
    strL "Either no help entries for <strong>" ++ plugin
      ++ strL "</strong> are available or the plugin does not exist"

/-- Modelled from the spec: the minimum-argument computation of the current
generation Command value object, whose source (the final `src/commander.py`)
is not in the tree.  Per section 4.4 of the spec, the documented syntax line
is split into words and the required placeholders are the angle-bracket
tokens not wrapped in square brackets; a word-level wrap means any token that
starts with an opening angle bracket is required, while `[<x>]` starts with a
square bracket and is optional. -/
def requiredTok (w : Str) : Bool :=
  match w with
  | '<' :: _ => true
  | _ => false

/-- Modelled from the spec: minimum required argument count derived from the
documented syntax line of a handler (absent line means no requirement). -/
def minArgsOfUsage : Option Str → Nat
  | none => 0
  | some u => ((wsSplit u).filter requiredTok).length

/-- Caller identity, as the nick and host of an `irc.client.NickMask`. -/
structure NickMask where
  nick : Str
  host : Str
deriving DecidableEq, Repr

/-- The Command value object handed to a handler: positional arguments,
options, caller, public flag and the documented syntax line of the resolved
handler. -/
structure CommandObj where
  args : List Str
  opts : Dict
  src : NickMask
  public : Bool
  usage : Option Str

/-- A plugin command handler as the resolver returns it: its documented
syntax line and its body, which either returns a reply or raises. -/
structure Handler where
  usage : Option Str
  run : CommandObj → Except PyExc Reply

/-- Modelled from the spec: the generic reply produced when an unrecognized
exception escapes a handler (spec section 7: a generic unknown-error reply,
delivered with the usual public or private default destination). -/
def unknownErrorReplyFor (public : Bool) : Reply :=
  Reply.item (RItem.tup (errorDestination public) (strL "An unknown error occurred"))

/-- Modelled from the spec: one tier attempt of the current generation
`Commander._execute`, whose source (the final `src/commander.py`) is not in
the tree; only its middle-generation predecessor (src/src/commander.py, lines
69-92) and its callers (src/interfaces/irc/commander.py) are.  Per spec
sections 4.2, 4.4 and 7: a missing command name or an unresolved handler
yields no reply and no error; a resolved handler is guarded by the
minimum-argument check, which raises `NotEnoughArgumentsError` before the
handler body runs; every recognized command-level or validation error is
caught and becomes a `(destination, message)` reply from the fields of the
exception; any other exception is caught and becomes the generic
unknown-error reply. -/
def execTier (resolve : Str → Str → Option Handler) (plugin : Str)
    (command : Option Str) (pfx : Str) (args : List Str) (opts : Dict)
    (src : NickMask) (public : Bool) : Except PyExc Reply :=
  match command with
  | none => .ok Reply.pyNone
  | some c =>
      match resolve plugin (pfx ++ c) with
      | none => .ok Reply.pyNone
      | some h =>
          let minA := minArgsOfUsage h.usage
          let attempt : Except PyExc Reply :=
            if args.length < minA then
              .error (PyExc.commandError CmdErrKind.notEnough
                (notEnoughArgumentsMessage (some minA) h.usage)
                (errorDestination public))
            else h.run ⟨args, opts, src, public, h.usage⟩
          match attempt with
          | .ok r => .ok r
          | .error (.commandError _ msg dest) => .ok (Reply.item (RItem.tup dest msg))
          | .error (.validationError msg dest) => .ok (Reply.item (RItem.tup dest msg))
          | .error _ => .ok (unknownErrorReplyFor public)

/-- The first-truthy-wins step of the tier ladder: `response = ...; if
response: return response`, with exception propagation. -/
def firstTruthy (x : Except PyExc Reply) (k : Unit → Except PyExc Reply) :
    Except PyExc Reply :=
  match x with
  | .error e => .error e
  | .ok r => if r.truthy then .ok r else k ()

/-- `Commander.execute` (src/src/commander.py, lines 229-273, identical in
control flow to `IRCCommander.execute`, src/interfaces/irc/commander.py,
lines 56-105), applied to the already tokenized command string: parse the
tokens into positional arguments and options, resolve plugin and command
(returning no reply when `PluginNotLoadedError` is raised), short-circuit
help requests to the help resolver, then walk the privilege ladder: the admin
tier for authenticated administrators, the user tier for all authenticated
callers, and the bare command tier for everyone. -/
def executeTokens (loaded : Str → Bool) (resolve : Str → Str → Option Handler)
    (authCheck : Str → Bool) (authAdmin : Str → Bool)
    (helpExec : Str → Option Str → Reply)
    (tokens : List Str) (src : NickMask) (public : Bool) :
    Except PyExc Reply :=
  let parsed := parseCommandString tokens
  match parseCommandArguments loaded parsed.1 with
  | none => .ok Reply.pyNone
  | some pa =>
      if pa.helpCommand then .ok (helpExec pa.plugin pa.command)
      else
        let tier := fun pfx =>
          execTier resolve pa.plugin pa.command pfx pa.args parsed.2 src public
        let userLadder := fun (_ : Unit) =>
          firstTruthy (tier (strL "user_command_"))
            (fun _ => tier (strL "command_"))
        if authCheck src.host then
          if authAdmin src.host then
            firstTruthy (tier (strL "admin_command_")) userLadder
          else userLadder ()
        else tier (strL "command_")

/-- One loaded plugin as the event broadcaster sees it: whether an Events
class is instantiated for the interface, and the outcome of invoking its
handler for the broadcast event (absent when `get_event` returns no callable
method). -/
structure PluginRec where
  hasEvents : Bool
  handler : Option (Except PyExc Reply)

/-- The command trigger pattern `^>>>( )?[a-zA-Z]+`: three closing angle
brackets, an optional single space, then at least one ASCII letter. -/
def triggerMatch : Str → Bool
  | '>' :: '>' :: '>' :: rest =>
      match rest with
      | ' ' :: c :: _ => c.isAlpha
      | c :: _ => c.isAlpha
      | [] => false
  | _ => false

/-- The plugin loop of `IRCCommander.event`
(src/interfaces/irc/commander.py, lines 126-146): skip plugins without
events or without a callable method for this event; invoke the handler;
a raised command error, validation error or any other exception is caught
and the loop continues; truthy replies are collected in iteration order. -/
def eventLoop : List PluginRec → List Reply
  | [] => []
  | p :: rest =>
      let tailR := eventLoop rest
      if p.hasEvents then
        match p.handler with
        | some (.ok r) => if r.truthy then r :: tailR else tailR
        | some (.error _) => tailR
        | none => tailR
      else tailR

/-- `IRCCommander.event` (src/interfaces/irc/commander.py, lines 107-149):
text matching the command trigger fires no events and returns Python `None`
(modelled as `none`); otherwise the reply list of the plugin loop is
returned. -/
def eventFire (plugins : List PluginRec) (msgText : Str) : Option (List Reply) :=
  if triggerMatch msgText then none else some (eventLoop plugins)

/-- Destination tag constants of `Postmaster`
(src/interfaces/irc/postmaster.py, lines 8-20). -/
def PRIVATE : Str := strL "private"

/-- Destination tag `private_notice`. -/
def PRIVATE_NOTICE : Str := strL "private_notice"

/-- Destination tag `private_action`. -/
def PRIVATE_ACTION : Str := strL "private_action"

/-- Destination tag `public`. -/
def PUBLIC : Str := strL "public"

/-- Destination tag `public_notice`. -/
def PUBLIC_NOTICE : Str := strL "public_notice"

/-- Destination tag `public_action`. -/
def PUBLIC_ACTION : Str := strL "public_action"

/-- Implicit destination tag `action`. -/
def ACTION : Str := strL "action"

/-- Special destination tag `command`. -/
def COMMAND : Str := strL "command"

/-- The three wire-level delivery primitives of the IRC connection. -/
inductive WireKind where
  | privmsg
  | notice
  | action
deriving DecidableEq, Repr

/-- One wire delivery: which primitive was called, with which recipient and
message. -/
structure Wire where
  kind : WireKind
  dest : Str
  msg : Str
deriving DecidableEq, Repr

/-- `Postmaster._get_handler` (src/interfaces/irc/postmaster.py, lines
56-92): untagged replies and unrecognized tags use the message primitive;
notice tags use notice; action tags use action. -/
def getHandlerKind : RItem → WireKind
  | .str _ => .privmsg
  | .tup d _ =>
      if d = PRIVATE ∨ d = PUBLIC then .privmsg
      else if d = PRIVATE_NOTICE ∨ d = PUBLIC_NOTICE then .notice
      else if d = PRIVATE_ACTION ∨ d = PUBLIC_ACTION ∨ d = ACTION then .action
      else .privmsg

/-- A resolved recipient: either a concrete name (nick or channel) or the
command pseudo-destination.  The source distinguishes the pseudo-destination
from a string that merely spells the same word with an identity comparison
against the interned class attribute, so it is a separate constructor here. -/
inductive Dest where
  | name (s : Str)
  | command
deriving DecidableEq, Repr

/-- `Postmaster._get_destination` (src/interfaces/irc/postmaster.py, lines
94-138): untagged replies, the implicit `action` tag and unrecognized tags
use the context default (the channel when public, the caller nick when not);
`command` is passed through as the pseudo-destination; private tags go to the
caller nick and public tags to the channel. -/
def getDestination (r : RItem) (src : NickMask) (channel : Str) (public : Bool) :
    Dest :=
  let dflt := if public then channel else src.nick
  match r with
  | .str _ => .name dflt
  | .tup d _ =>
      if d = ACTION then .name dflt
      else if d = COMMAND then .command
      else if d = PRIVATE ∨ d = PRIVATE_NOTICE ∨ d = PRIVATE_ACTION then .name src.nick
      else if d = PUBLIC ∨ d = PUBLIC_NOTICE ∨ d = PUBLIC_ACTION then .name channel
      else .name dflt

/-- Characters removed by `''.join(message.splitlines())` in
`Postmaster._parse_response_message`: the Python line boundaries. -/
def isLineBoundary (c : Char) : Bool :=
  c = '\n' || c = '\r' || c = Char.ofNat 11 || c = Char.ofNat 12 ||
  c = Char.ofNat 28 || c = Char.ofNat 29 || c = Char.ofNat 30 ||
  c = Char.ofNat 133 || c = Char.ofNat 8232 || c = Char.ofNat 8233

/-- `Postmaster._parse_response_message` (src/interfaces/irc/postmaster.py,
lines 163-179): take the message part of the reply, apply the HTML-to-IRC
formatter of the excluded message parser collaborator (the `fmt` parameter),
and flatten line breaks. -/
def parseResponseMessage (fmt : Str → Str) (r : RItem) : Str :=
  let message := match r with | .tup _ m => m | .str s => s
  (fmt message).filter (fun c => !(isLineBoundary c))

/-- Wrapping of a reply value into the list iterated by
`Postmaster.deliver`; a Python `None` reply never reaches delivery because
every call site guards on truthiness first. -/
def normalizeReply : Reply → List RItem
  | .pyNone => []
  | .item i => [i]
  | .list l => l

/-- `Postmaster.deliver` together with `Postmaster._fire_command`
(src/interfaces/irc/postmaster.py, lines 140-161 and 181-211), returning the
sequence of wire deliveries it performs.  For each reply in order: compute
the primitive, the recipient and the formatted message; when the recipient is
the command pseudo-destination, execute the message as a new command string
with the same source and public context, catch any exception from that
execution (dropping the reply), and recursively deliver a truthy result; any
other recipient receives one wire delivery.  The `fuel` parameter bounds the
recursion depth of the embedding only; the source recursion is unbounded. -/
def deliverLoop (exec : Str → Except PyExc Reply) (fmt : Str → Str) :
    Nat → List RItem → NickMask → Str → Bool → List Wire
  | _, [], _, _, _ => []
  | fuel, r :: rest, src, chan, public =>
      let message := parseResponseMessage fmt r
      let head : List Wire :=
        match getDestination r src chan public with
        | .command =>
            match exec message with
            | .error _ => []
            | .ok reply =>
                if reply.truthy then
                  match fuel with
                  | 0 => []
                  | f + 1 => deliverLoop exec fmt f (normalizeReply reply) src chan public
                else []
        | .name dest => [⟨getHandlerKind r, dest, message⟩]
      head ++ deliverLoop exec fmt fuel rest src chan public
  termination_by fuel rs => (fuel, rs.length)

/-- `Postmaster.deliver` entry point on a reply value. -/
def deliver (exec : Str → Except PyExc Reply) (fmt : Str → Str) (fuel : Nat)
    (reply : Reply) (src : NickMask) (chan : Str) (public : Bool) : List Wire :=
  deliverLoop exec fmt fuel (normalizeReply reply) src chan public

/-- `Commander.filter_command_string` (src/src/commander.py, lines 306-359),
parameterized by the registry check and by the tokenizer `tok` standing for
`shlex.split`.  The trigger is stripped once here and once more inside
`_parse_command_string`; a help request is returned unfiltered; a valid
command string is reduced to the trigger, plugin and command (a missing
command prints as `None`, per Python string formatting), flagged as filtered
when positional arguments were dropped; an invalid command string falls back
to its first two raw tokens. -/
def filterCommandString (loaded : Str → Bool) (tok : Str → List Str)
    (s : Str) : Str × Bool :=
  let s1 := pyStrip (pyLStripGT s)
  let tokens := tok (pyStrip (pyLStripGT s1))
  let parsed := parseCommandString tokens
  match parseCommandArguments loaded parsed.1 with
  | some pa =>
      if pa.helpCommand then (strL ">>> " ++ s1, false)
      else
        let cmdStr := match pa.command with | some c => c | none => strL "None"
        (strL ">>> " ++ pa.plugin ++ strL " " ++ cmdStr, !(pa.args = []))
  | none =>
      let args2 := tok s1
      let p1 := match args2 with | p :: r => (p, r) | [] => (strL "", [])
      let p2 := match p1.2 with | c :: r => (c, r) | [] => (strL "", [])
      (strL ">>> " ++ p1.1 ++ strL " " ++ p2.1, !(p2.2 = []))

/-- A row of the in-memory `user_sessions` table
(src/database/models/UserSession.py). -/
structure UserSession where
  userId : Nat
  networkId : Nat
  hostmask : Str
deriving DecidableEq, Repr

/-- An SQLAlchemy query over the session table, reduced to its accumulated
row criterion. -/
abbrev SAQuery := UserSession → Bool

/-- `Query.filter`: returns a new query with the extra criterion conjoined;
the receiver query is unchanged. -/
def SAQuery.withFilter (q : SAQuery) (p : UserSession → Bool) : SAQuery :=
  fun s => q s && p s

/-- `Query.delete`: remove every row matched by the query from the store. -/
def saDelete (store : List UserSession) (q : SAQuery) : List UserSession :=
  store.filter (fun s => !(q s))

/-- `AuthSession.exists` (src/modules/Auth/module.py, lines 145-159): here
the two `filter` calls are chained onto the query that is actually counted. -/
def sessionExists (store : List UserSession) (networkId : Nat) (hostmask : Str) :
    Bool :=
  let query := (SAQuery.withFilter (fun _ => true)
      (fun s => s.networkId = networkId)).withFilter
      (fun s => s.hostmask = hostmask)
  !((store.filter query) = [])

/-- `AuthSession.destroy` (src/modules/Auth/module.py, lines 210-231).  The
source builds `query = self.dms.query(UserSession)` and then evaluates
`query.filter(...)` for each supplied argument without assigning the result,
so the filtered queries `q1`, `q2`, `q3` below are discarded exactly as in
the source, and `query.delete()` runs on the unfiltered query. -/
def AuthSession.destroy (store : List UserSession) (user : Option Nat)
    (network : Option Nat) (hostmask : Option Str) : List UserSession :=
  let query : SAQuery := fun _ => true
  let q1 := match user with
    | some uid => query.withFilter (fun s => s.userId = uid)
    | none => query
  let q2 := match network with
    | some nid => query.withFilter (fun s => s.networkId = nid)
    | none => query
  let q3 := match hostmask with
    | some hm => query.withFilter (fun s => s.hostmask = hm)
    | none => query
  let _ := q1
  let _ := q2
  let _ := q3
  saDelete store query

/-- `Auth.logout` (src/modules/Auth/module.py, lines 116-132): raise
`NotAuthenticatedError` when no session exists for the hostmask on the
network, otherwise destroy with the network and hostmask filters. -/
def Auth.logout (store : List UserSession) (networkId : Nat) (hostmask : Str) :
    Except PyExc (List UserSession) :=
  if sessionExists store networkId hostmask then
    .ok (AuthSession.destroy store none (some networkId) (some hostmask))
  else .error (PyExc.otherExc (strL "NotAuthenticatedError"))

/-- The contribution of one plugin to the event reply list: its reply when it
has events, a callable handler for the event, no raised exception and a
truthy result; nothing otherwise. -/
def eventKeep (p : PluginRec) : Option Reply :=
  if p.hasEvents then
    match p.handler with
    | some (.ok r) => if r.truthy then some r else none
    | some (.error _) => none
    | none => none
  else none

/-!
Theorems.  Helper lemmas come first; the claim theorems, their witnesses and
the counterexamples follow, one group per claim.
-/

theorem takeWhile_of_all_head (p : Char → Bool) (xs : Str) (y : Char) (ys : Str)
    (hxs : ∀ x ∈ xs, p x = true) (hy : p y = false) :
    (xs ++ y :: ys).takeWhile p = xs := by
  induction xs with
  | nil => simp [List.takeWhile, hy]
  | cons a rest ih =>
      have ha : p a = true := hxs a (by simp)
      simp only [List.cons_append, List.takeWhile_cons, ha, if_true]
      simp [ih (fun x hx => hxs x (by simp [hx]))]

theorem dropWhile_of_all_head (p : Char → Bool) (xs : Str) (y : Char) (ys : Str)
    (hxs : ∀ x ∈ xs, p x = true) (hy : p y = false) :
    (xs ++ y :: ys).dropWhile p = y :: ys := by
  induction xs with
  | nil => simp [List.dropWhile, hy]
  | cons a rest ih =>
      have ha : p a = true := hxs a (by simp)
      simp only [List.cons_append, List.dropWhile_cons, ha, if_true]
      exact ih (fun x hx => hxs x (by simp [hx]))

theorem pcsGo_args (ts : List Str) : ∀ (args : List Str) (opts : Dict),
    (pcsGo ts args opts).1 = args ++ ts.filter (fun t => !(isOptTok t)) := by
  induction ts with
  | nil => intro args opts; simp [pcsGo]
  | cons t rest ih =>
      intro args opts
      rcases hS : shortOptMatch t with _ | c
      · rcases hL : longOptMatch t with _ | nv
        · simp [pcsGo, hS, hL, isOptTok, ih]
        · simp [pcsGo, hS, hL, isOptTok, ih]
      · simp [pcsGo, hS, isOptTok, ih]

theorem shortOptMatch_three (a b c : Char) (rest : Str) :
    shortOptMatch (a :: b :: c :: rest) = none := rfl

theorem longOptMatch_of_head_ne (a : Char) (t : Str) (h : ¬ a = '-') :
    longOptMatch (a :: t) = none := by
  cases t with
  | nil => rfl
  | cons b r => simp [longOptMatch, h]

theorem longOptMatch_plain (name value : Str)
    (hname : ∀ x ∈ name, x.isAlpha = true) (hval : value ≠ [])
    (hquote : value.head? ≠ some '"') :
    longOptMatch ('-' :: '-' :: (name ++ '=' :: value)) = some (name, value) := by
  have htake := takeWhile_of_all_head Char.isAlpha name '=' value hname (by decide)
  have hdrop := dropWhile_of_all_head Char.isAlpha name '=' value hname (by decide)
  simp [longOptMatch, htake, hdrop, hval, hquote]

theorem help_token_not_opt (t : Str) (ht : pyLowerL t = strL "help") :
    isOptTok t = false := by
  rcases t with _ | ⟨a, _ | ⟨b, _ | ⟨c, _ | ⟨d, rest⟩⟩⟩⟩ <;>
    simp [pyLowerL, strL] at ht
  obtain ⟨ha, hb, hc, hd, hrest⟩ := ht
  subst hrest
  have hadash : ¬ a = '-' := by
    intro hcontr
    rw [hcontr] at ha
    exact absurd ha (by decide)
  simp [isOptTok, shortOptMatch_three, longOptMatch_of_head_ne a _ hadash]

theorem parse_help_flag (loaded : Str → Bool) (t : Str) (args2 : List Str)
    (pa : ParsedArgs) (ht : pyLowerL t = strL "help")
    (hp : parseCommandArguments loaded (t :: args2) = some pa) :
    pa.helpCommand = true := by
  unfold parseCommandArguments at hp
  simp only [ht] at hp
  simp at hp
  split at hp
  · exact absurd hp (by simp)
  · split at hp
    · injection hp with hp2
      subst hp2; rfl
    · injection hp with hp2
      subst hp2; rfl

theorem execTier_isOk (resolve : Str → Str → Option Handler) (plugin : Str)
    (command : Option Str) (pfx : Str) (args : List Str) (opts : Dict)
    (src : NickMask) (public : Bool) :
    ∃ r, execTier resolve plugin command pfx args opts src public = .ok r := by
  cases command with
  | none => exact ⟨Reply.pyNone, rfl⟩
  | some c =>
      cases hr : resolve plugin (pfx ++ c) with
      | none => exact ⟨Reply.pyNone, by simp [execTier, hr]⟩
      | some h =>
          by_cases hlen : args.length < minArgsOfUsage h.usage
          · simp [execTier, hr, hlen]
          · cases hrun : h.run ⟨args, opts, src, public, h.usage⟩ with
            | ok r => simp [execTier, hr, hlen, hrun]
            | error e =>
                cases e with
                | commandError k m d => simp [execTier, hr, hlen, hrun]
                | validationError m d => simp [execTier, hr, hlen, hrun]
                | pluginNotLoaded => simp [execTier, hr, hlen, hrun]
                | otherExc n => simp [execTier, hr, hlen, hrun]

theorem deliverLoop_append (exec : Str → Except PyExc Reply) (fmt : Str → Str)
    (fuel : Nat) (a b : List RItem) (src : NickMask) (chan : Str)
    (public : Bool) :
    deliverLoop exec fmt fuel (a ++ b) src chan public =
      deliverLoop exec fmt fuel a src chan public ++
        deliverLoop exec fmt fuel b src chan public := by
  induction a with
  | nil => simp [deliverLoop]
  | cons r rest ih => simp [deliverLoop, ih]

theorem eventLoop_eq_filterMap (l : List PluginRec) :
    eventLoop l = l.filterMap eventKeep := by
  induction l with
  | nil => rfl
  | cons p rest ih =>
      simp only [eventLoop, List.filterMap_cons]
      by_cases hp : p.hasEvents
      · rcases hh : p.handler with _ | x
        · simp [eventKeep, hp, hh, ih]
        · cases x with
          | ok r => by_cases ht : r.truthy <;> simp [eventKeep, hp, hh, ht, ih]
          | error e => simp [eventKeep, hp, hh, ih]
      · simp [eventKeep, hp, ih]

/-- C10: `AuthSession.destroy` evaluates `query.filter(...)` for each
supplied argument without ever assigning the result, so the delete runs on
the unfiltered query and removes every active login session from the
in-memory store, for every combination of user, network and hostmask
arguments; in particular the network-and-hostmask call made by `Auth.logout`
for one authenticated user empties the whole store. -/
theorem nano_c10_destroy_clears_all_sessions :
    (∀ (store : List UserSession) (user network : Option Nat)
        (hostmask : Option Str),
        AuthSession.destroy store user network hostmask = [])
    ∧ (∀ (store : List UserSession) (networkId : Nat) (hostmask : Str),
        Auth.logout store networkId hostmask =
          if sessionExists store networkId hostmask then Except.ok []
          else Except.error (PyExc.otherExc (strL "NotAuthenticatedError"))) := by
  constructor
  · intro store user network hostmask
    simp [AuthSession.destroy, saDelete]
  · intro store networkId hostmask
    by_cases h : sessionExists store networkId hostmask
    · simp [Auth.logout, h, AuthSession.destroy, saDelete]
    · simp [Auth.logout, h]

/-- C3: a reply whose explicit destination tag is `command` produces no wire
delivery of its own; instead the command executor runs on the formatted
message of that reply with the same source and public context, an exception
raised by that execution is caught and the reply is silently dropped, and a
truthy result is delivered by a recursive call of the delivery loop. -/
theorem nano_c3_command_pseudo_destination
    (exec : Str → Except PyExc Reply) (fmt : Str → Str) (f : Nat)
    (pre post : List RItem) (m : Str) (src : NickMask) (chan : Str)
    (public : Bool) :
    deliverLoop exec fmt (f + 1) (pre ++ RItem.tup COMMAND m :: post) src chan public =
      deliverLoop exec fmt (f + 1) pre src chan public ++
        (match exec (parseResponseMessage fmt (RItem.tup COMMAND m)) with
         | .error _ => []
         | .ok reply =>
             if reply.truthy then
               deliverLoop exec fmt f (normalizeReply reply) src chan public
             else []) ++
        deliverLoop exec fmt (f + 1) post src chan public := by
  rw [deliverLoop_append, List.append_assoc]
  congr 1
  have hdest : getDestination (RItem.tup COMMAND m) src chan public = Dest.command := by
    simp +decide [getDestination, ACTION, COMMAND, strL]
  rw [deliverLoop]
  rw [hdest]

/-- C8: if one event handler raises an exception of any kind, the broadcast
loop continues, so the reply list of the event broadcaster is exactly the
list of truthy replies of the non-raising handlers of the other plugins, in
plugin iteration order. -/
theorem nano_c8_event_isolation
    (pre post : List PluginRec) (a : PluginRec) (e : PyExc) (text : Str)
    (hEvents : a.hasEvents = true) (hRaise : a.handler = some (.error e))
    (hNoTrig : triggerMatch text = false) :
    eventFire (pre ++ a :: post) text =
      some ((pre ++ post).filterMap eventKeep) := by
  simp only [eventFire, hNoTrig, if_false, eventLoop_eq_filterMap,
    Bool.false_eq_true]
  simp [List.filterMap_append, List.filterMap_cons, eventKeep, hEvents, hRaise]

/-- Witness for C8: a raising plugin between two replying plugins. -/
theorem nano_c8_witness :
    eventFire
        ([⟨true, some (Except.ok (Reply.item (RItem.str (strL "one"))))⟩] ++
          (⟨true, some (Except.error (PyExc.otherExc (strL "RuntimeError")))⟩ : PluginRec) ::
            [⟨true, some (Except.ok (Reply.item (RItem.str (strL "two"))))⟩])
        (strL "hello") =
      some (([⟨true, some (Except.ok (Reply.item (RItem.str (strL "one"))))⟩,
          ⟨true, some (Except.ok (Reply.item (RItem.str (strL "two"))))⟩] :
            List PluginRec).filterMap eventKeep) :=
  nano_c8_event_isolation _ _ _ (PyExc.otherExc (strL "RuntimeError")) _
    rfl rfl (by decide)

/-- C6: in the token loop of the command string parser, a short option token
(dash plus a single letter) stores True under its lower-cased letter; a long
option token with a letters-only name and a nonempty value not opening with
a double quote stores the lower-cased value under the lower-cased name; the
positional arguments returned are exactly the non-option tokens in their
original order, so every token matched as an option is absent from them. -/
theorem nano_c6_option_parsing :
    (∀ (c : Char) (rest args : List Str) (opts : Dict), c.isAlpha = true →
        pcsGo (['-', c] :: rest) args opts =
          pcsGo rest args (dictSet opts [c.toLower] (OptVal.flag true)))
    ∧ (∀ (name value : Str) (rest args : List Str) (opts : Dict),
        (∀ x ∈ name, x.isAlpha = true) → value ≠ [] →
        value.head? ≠ some '"' →
        pcsGo (('-' :: '-' :: (name ++ '=' :: value)) :: rest) args opts =
          pcsGo rest args
            (dictSet opts (pyLowerL name) (OptVal.str (pyLowerL value))))
    ∧ (∀ tokens : List Str,
        (parseCommandString tokens).1 = tokens.filter (fun t => !(isOptTok t))) := by
  refine ⟨?_, ?_, ?_⟩
  · intro c rest args opts hc
    simp [pcsGo, shortOptMatch, hc]
  · intro name value rest args opts hname hval hq
    have hshort : shortOptMatch ('-' :: '-' :: (name ++ '=' :: value)) = none := by
      cases hX : name ++ '=' :: value with
      | nil => simp at hX
      | cons x xs => exact shortOptMatch_three '-' '-' x xs
    have hlong := longOptMatch_plain name value hname hval hq
    simp [pcsGo, hshort, hlong]
  · intro tokens
    have h := pcsGo_args tokens [] []
    simpa [parseCommandString] using h

/-- Witness for C6: a toggle option and a valued option token. -/
theorem nano_c6_witness :
    ('X'.isAlpha = true ∧ (∀ x ∈ strL "Name", x.isAlpha = true) ∧
      strL "Val" ≠ [] ∧ (strL "Val").head? ≠ some '"')
    ∧ pcsGo [['-', 'X']] [] [] = pcsGo [] [] (dictSet [] ['x'] (OptVal.flag true))
    ∧ pcsGo [('-' :: '-' :: (strL "Name" ++ '=' :: strL "Val"))] [] [] =
        pcsGo [] []
          (dictSet [] (pyLowerL (strL "Name")) (OptVal.str (pyLowerL (strL "Val")))) :=
  ⟨by decide,
   nano_c6_option_parsing.1 'X' [] [] [] (by decide),
   nano_c6_option_parsing.2.1 (strL "Name") (strL "Val") [] [] []
     (by decide) (by decide) (by decide)⟩

/-- Counterexample to C7: with a registry where only the dotted name a.b is
loaded, parsing the tokens a b c matches the sub-plugin a.b but consumes only
one token, so the command becomes b, the second half of the matched plugin
name, instead of c with remaining arguments empty as the claim (two tokens
consumed whenever the dotted sub-plugin is the match) predicts. -/
theorem nano_c7_counterexample :
    parseCommandArguments (fun s => decide (s = strL "a.b"))
        [strL "a", strL "b", strL "c"] =
      some ⟨strL "a.b", some (strL "b"), [strL "c"], false⟩
    ∧ parseCommandArguments (fun s => decide (s = strL "a.b"))
        [strL "a", strL "b", strL "c"] ≠
      some ⟨strL "a.b", some (strL "c"), [], false⟩ := by
  constructor <;> decide

/-- C7 amended: the first token is matched against the registry, then the
dotted join of the lower-cased first two tokens, with the dotted sub-plugin
preferred when both match; two tokens are consumed only when the first token
also matched on its own; when only the dotted name matches, a single token is
consumed and the second token, part of the matched plugin name, becomes the
command. -/
theorem nano_c7_amended (loaded : Str → Bool) (t0 t1 : Str)
    (rest : List Str) (hnh : pyLowerL t0 ≠ strL "help") :
    parseCommandArguments loaded (t0 :: t1 :: rest) =
      (if loaded (pyLowerL t0) then
         if loaded (pyLowerL t0 ++ strL "." ++ pyLowerL t1) then
           match rest with
           | c :: r2 => some ⟨pyLowerL t0 ++ strL "." ++ pyLowerL t1, some c, r2, false⟩
           | [] => some ⟨pyLowerL t0 ++ strL "." ++ pyLowerL t1, none, [], false⟩
         else some ⟨pyLowerL t0, some t1, rest, false⟩
       else
         if loaded (pyLowerL t0 ++ strL "." ++ pyLowerL t1) then
           some ⟨pyLowerL t0 ++ strL "." ++ pyLowerL t1, some t1, rest, false⟩
         else none) := by
  by_cases h1 : loaded (pyLowerL t0) <;>
    by_cases h2 : loaded (pyLowerL t0 ++ (strL "." ++ pyLowerL t1))
  · cases rest <;> simp [parseCommandArguments, hnh, h1, h2]
  · simp [parseCommandArguments, hnh, h1, h2]
  · simp [parseCommandArguments, hnh, h1, h2]
  · simp [parseCommandArguments, hnh, h1, h2]

/-- Witness for C7 amended: the registry of the counterexample. -/
theorem nano_c7_amended_witness :
    pyLowerL (strL "a") ≠ strL "help"
    ∧ parseCommandArguments (fun s => decide (s = strL "a.b"))
        (strL "a" :: strL "b" :: [strL "c"]) =
      (if (fun s => decide (s = strL "a.b")) (pyLowerL (strL "a")) then
         if (fun s => decide (s = strL "a.b"))
             (pyLowerL (strL "a") ++ strL "." ++ pyLowerL (strL "b")) then
           match [strL "c"] with
           | c :: r2 =>
               some ⟨pyLowerL (strL "a") ++ strL "." ++ pyLowerL (strL "b"),
                 some c, r2, false⟩
           | [] =>
               some ⟨pyLowerL (strL "a") ++ strL "." ++ pyLowerL (strL "b"),
                 none, [], false⟩
         else some ⟨pyLowerL (strL "a"), some (strL "b"), [strL "c"], false⟩
       else
         if (fun s => decide (s = strL "a.b"))
             (pyLowerL (strL "a") ++ strL "." ++ pyLowerL (strL "b")) then
           some ⟨pyLowerL (strL "a") ++ strL "." ++ pyLowerL (strL "b"),
             some (strL "b"), [strL "c"], false⟩
         else none) :=
  ⟨by decide,
   nano_c7_amended (fun s => decide (s = strL "a.b")) (strL "a") (strL "b")
     [strL "c"] (by decide)⟩

/-- Counterexample to C9: for a help request the filter returns the original
command string unredacted, so the positional argument hunter2 appears
verbatim in the returned string. -/
theorem nano_c9_counterexample :
    (filterCommandString (fun s => decide (s = strL "auth")) wsSplit
        (strL ">>> help auth login hunter2")).1 =
      strL ">>> help auth login hunter2"
    ∧ (strL "hunter2") <:+:
        ((filterCommandString (fun s => decide (s = strL "auth")) wsSplit
          (strL ">>> help auth login hunter2")).1)
    ∧ (filterCommandString (fun s => decide (s = strL "auth")) wsSplit
          (strL ">>> help auth login hunter2")).1 ≠
        strL ">>> auth login" := by
  refine ⟨by decide, by decide, by decide⟩

/-- C9 amended: for every command string that parses to a loaded plugin and
is not a help request, the filter returns only the trigger marker, the
resolved plugin name and the command name (a missing command prints as
None), so the positional arguments never appear; a help request is returned
unfiltered, with its arguments intact. -/
theorem nano_c9_amended (loaded : Str → Bool) (tok : Str → List Str)
    (s : Str) (pa : ParsedArgs)
    (hparse : parseCommandArguments loaded
        (parseCommandString
          (tok (pyStrip (pyLStripGT (pyStrip (pyLStripGT s)))))).1 = some pa)
    (hhelp : pa.helpCommand = false) :
    (filterCommandString loaded tok s).1 =
      strL ">>> " ++ pa.plugin ++ strL " " ++
        (match pa.command with | some c => c | none => strL "None") := by
  simp [filterCommandString, hparse, hhelp]

/-- Witness for C9 amended: a valid non-help command string with a password
argument, reduced to the trigger, plugin and command. -/
theorem nano_c9_amended_witness :
    parseCommandArguments (fun s => decide (s = strL "auth"))
        (parseCommandString
          (wsSplit (pyStrip (pyLStripGT (pyStrip
            (pyLStripGT (strL ">>> auth login hunter2"))))))).1 =
      some ⟨strL "auth", some (strL "login"), [strL "hunter2"], false⟩
    ∧ (filterCommandString (fun s => decide (s = strL "auth")) wsSplit
        (strL ">>> auth login hunter2")).1 =
      strL ">>> " ++ strL "auth" ++ strL " " ++ strL "login" :=
  ⟨by decide,
   nano_c9_amended (fun s => decide (s = strL "auth")) wsSplit
     (strL ">>> auth login hunter2")
     ⟨strL "auth", some (strL "login"), [strL "hunter2"], false⟩
     (by decide) rfl⟩

/-- C5: when the first token of the command string is the literal help in
any letter case, the executor flags a help request, consumes the token and
returns the help resolver result for the named plugin and optional command;
the result is the same for every resolver and every authentication state, so
neither the authentication gate nor any tier handler can influence it. -/
theorem nano_c5_help_bypass
    (loaded : Str → Bool) (resolve resolve2 : Str → Str → Option Handler)
    (authCheck ac2 authAdmin ad2 : Str → Bool)
    (helpExec : Str → Option Str → Reply) (t : Str) (rest : List Str)
    (src : NickMask) (public : Bool) (pa : ParsedArgs)
    (ht : pyLowerL t = strL "help")
    (hp : parseCommandArguments loaded (parseCommandString (t :: rest)).1 =
      some pa) :
    pa.helpCommand = true
    ∧ executeTokens loaded resolve authCheck authAdmin helpExec (t :: rest)
        src public = .ok (helpExec pa.plugin pa.command)
    ∧ executeTokens loaded resolve authCheck authAdmin helpExec (t :: rest)
        src public =
      executeTokens loaded resolve2 ac2 ad2 helpExec (t :: rest) src public := by
  have hnopt := help_token_not_opt t ht
  have hargs : (parseCommandString (t :: rest)).1 =
      t :: rest.filter (fun x => !(isOptTok x)) := by
    have h1 := pcsGo_args (t :: rest) [] []
    simpa [parseCommandString, List.filter_cons, hnopt] using h1
  have hflag : pa.helpCommand = true := by
    rw [hargs] at hp
    exact parse_help_flag loaded t _ pa ht hp
  refine ⟨hflag, ?_, ?_⟩
  · simp [executeTokens, hp, hflag]
  · simp [executeTokens, hp, hflag]

/-- Witness for C5: a help request for the login command of the auth plugin,
resolved with no tier handlers and no authentication. -/
theorem nano_c5_witness :
    executeTokens (fun s => decide (s = strL "auth")) (fun _ _ => none)
        (fun _ => false) (fun _ => false)
        (fun p _ => Reply.item (RItem.str p))
        (strL "help" :: [strL "auth", strL "login"])
        ⟨strL "nick", strL "host"⟩ true =
      Except.ok (Reply.item (RItem.str (strL "auth"))) :=
  (nano_c5_help_bypass (fun s => decide (s = strL "auth")) (fun _ _ => none)
      (fun _ _ => none) (fun _ => false) (fun _ => false) (fun _ => false)
      (fun _ => false) (fun p _ => Reply.item (RItem.str p)) (strL "help")
      [strL "auth", strL "login"] ⟨strL "nick", strL "host"⟩ true
      ⟨strL "auth", some (strL "login"), [], true⟩ (by decide) (by decide)).2.1

/-- C2: for a parsed non-help command from an authenticated administrator,
the executor attempts the admin tier first and, when that tier reply is not
truthy, falls through to the user tier and then to the bare command tier;
the first truthy tier reply is the returned value, so an admin caller never
receives a lower tier reply when the admin tier produced a truthy one; and
with the authentication gate reporting no session, the bare command tier is
still attempted and its reply returned. -/
theorem nano_c2_tier_ladder
    (loaded : Str → Bool) (resolve : Str → Str → Option Handler)
    (authCheck authAdmin : Str → Bool) (helpExec : Str → Option Str → Reply)
    (tokens : List Str) (src : NickMask) (public : Bool) (pa : ParsedArgs)
    (hparse : parseCommandArguments loaded (parseCommandString tokens).1 =
      some pa)
    (hhelp : pa.helpCommand = false)
    (hauth : authCheck src.host = true) (hadmin : authAdmin src.host = true) :
    (∃ a u p : Reply,
      execTier resolve pa.plugin pa.command (strL "admin_command_") pa.args
          (parseCommandString tokens).2 src public = .ok a ∧
      execTier resolve pa.plugin pa.command (strL "user_command_") pa.args
          (parseCommandString tokens).2 src public = .ok u ∧
      execTier resolve pa.plugin pa.command (strL "command_") pa.args
          (parseCommandString tokens).2 src public = .ok p ∧
      executeTokens loaded resolve authCheck authAdmin helpExec tokens src
          public = .ok (if a.truthy then a else if u.truthy then u else p))
    ∧ executeTokens loaded resolve (fun _ => false) authAdmin helpExec tokens
        src public =
      execTier resolve pa.plugin pa.command (strL "command_") pa.args
        (parseCommandString tokens).2 src public := by
  obtain ⟨a, ha⟩ := execTier_isOk resolve pa.plugin pa.command
    (strL "admin_command_") pa.args (parseCommandString tokens).2 src public
  obtain ⟨u, hu⟩ := execTier_isOk resolve pa.plugin pa.command
    (strL "user_command_") pa.args (parseCommandString tokens).2 src public
  obtain ⟨p, hp2⟩ := execTier_isOk resolve pa.plugin pa.command
    (strL "command_") pa.args (parseCommandString tokens).2 src public
  constructor
  · refine ⟨a, u, p, ha, hu, hp2, ?_⟩
    simp only [executeTokens, hparse, hhelp, hauth, hadmin, firstTruthy,
      Bool.false_eq_true, if_false, if_true, ha, hu, hp2]
    by_cases hta : a.truthy
    · simp [hta]
    · by_cases htu : u.truthy <;> simp [hta, htu, hp2]
  · simp [executeTokens, hparse, hhelp]

/-- Witness for C2: an admin caller with an admin tier handler replying, a
user tier handler replying differently, and no public tier handler. -/
theorem nano_c2_witness :
    (∃ a u p : Reply,
      execTier
          (fun _ m =>
            if m = strL "admin_command_go" then
              some ⟨none, fun _ => .ok (Reply.item (RItem.str (strL "adm")))⟩
            else if m = strL "user_command_go" then
              some ⟨none, fun _ => .ok (Reply.item (RItem.str (strL "usr")))⟩
            else none)
          (strL "a") (some (strL "go")) (strL "admin_command_") []
          (parseCommandString [strL "a", strL "go"]).2
          ⟨strL "nick", strL "host"⟩ true = .ok a ∧
      execTier
          (fun _ m =>
            if m = strL "admin_command_go" then
              some ⟨none, fun _ => .ok (Reply.item (RItem.str (strL "adm")))⟩
            else if m = strL "user_command_go" then
              some ⟨none, fun _ => .ok (Reply.item (RItem.str (strL "usr")))⟩
            else none)
          (strL "a") (some (strL "go")) (strL "user_command_") []
          (parseCommandString [strL "a", strL "go"]).2
          ⟨strL "nick", strL "host"⟩ true = .ok u ∧
      execTier
          (fun _ m =>
            if m = strL "admin_command_go" then
              some ⟨none, fun _ => .ok (Reply.item (RItem.str (strL "adm")))⟩
            else if m = strL "user_command_go" then
              some ⟨none, fun _ => .ok (Reply.item (RItem.str (strL "usr")))⟩
            else none)
          (strL "a") (some (strL "go")) (strL "command_") []
          (parseCommandString [strL "a", strL "go"]).2
          ⟨strL "nick", strL "host"⟩ true = .ok p ∧
      executeTokens (fun s => decide (s = strL "a"))
          (fun _ m =>
            if m = strL "admin_command_go" then
              some ⟨none, fun _ => .ok (Reply.item (RItem.str (strL "adm")))⟩
            else if m = strL "user_command_go" then
              some ⟨none, fun _ => .ok (Reply.item (RItem.str (strL "usr")))⟩
            else none)
          (fun _ => true) (fun _ => true)
          (fun p2 _ => Reply.item (RItem.str p2)) [strL "a", strL "go"]
          ⟨strL "nick", strL "host"⟩ true =
        .ok (if a.truthy then a else if u.truthy then u else p))
    ∧ executeTokens (fun s => decide (s = strL "a"))
        (fun _ m =>
          if m = strL "admin_command_go" then
            some ⟨none, fun _ => .ok (Reply.item (RItem.str (strL "adm")))⟩
          else if m = strL "user_command_go" then
            some ⟨none, fun _ => .ok (Reply.item (RItem.str (strL "usr")))⟩
          else none)
        (fun _ => false) (fun _ => true)
        (fun p2 _ => Reply.item (RItem.str p2)) [strL "a", strL "go"]
        ⟨strL "nick", strL "host"⟩ true =
      execTier
        (fun _ m =>
          if m = strL "admin_command_go" then
            some ⟨none, fun _ => .ok (Reply.item (RItem.str (strL "adm")))⟩
          else if m = strL "user_command_go" then
            some ⟨none, fun _ => .ok (Reply.item (RItem.str (strL "usr")))⟩
          else none)
        (strL "a") (some (strL "go")) (strL "command_") []
        (parseCommandString [strL "a", strL "go"]).2
        ⟨strL "nick", strL "host"⟩ true :=
  nano_c2_tier_ladder (fun s => decide (s = strL "a"))
    (fun _ m =>
      if m = strL "admin_command_go" then
        some ⟨none, fun _ => .ok (Reply.item (RItem.str (strL "adm")))⟩
      else if m = strL "user_command_go" then
        some ⟨none, fun _ => .ok (Reply.item (RItem.str (strL "usr")))⟩
      else none)
    (fun _ => true) (fun _ => true) (fun p2 _ => Reply.item (RItem.str p2))
    [strL "a", strL "go"] ⟨strL "nick", strL "host"⟩ true
    ⟨strL "a", some (strL "go"), [], false⟩ (by decide) rfl rfl rfl

/-- C1: (executor modelled from the spec) command execution always returns a
reply value for every registry, resolver, authentication state and handler
behaviour, so no handler exception propagates out of execute; at the tier
level, a recognized command-level error raised by the handler becomes a
reply pairing the destination and error message of the exception, a
validation error likewise, and any other exception becomes the generic
unknown-error reply. -/
theorem nano_c1_executor_error_handling :
    (∀ (loaded : Str → Bool) (resolve : Str → Str → Option Handler)
        (authCheck authAdmin : Str → Bool)
        (helpExec : Str → Option Str → Reply) (tokens : List Str)
        (src : NickMask) (public : Bool),
        ∃ r, executeTokens loaded resolve authCheck authAdmin helpExec tokens
            src public = .ok r)
    ∧ (∀ (resolve : Str → Str → Option Handler) (plugin c pfx : Str)
        (args : List Str) (opts : Dict) (src : NickMask) (public : Bool)
        (h : Handler) (kind : CmdErrKind) (msg dest : Str),
        resolve plugin (pfx ++ c) = some h →
        ¬ args.length < minArgsOfUsage h.usage →
        h.run ⟨args, opts, src, public, h.usage⟩ =
          .error (PyExc.commandError kind msg dest) →
        execTier resolve plugin (some c) pfx args opts src public =
          .ok (Reply.item (RItem.tup dest msg)))
    ∧ (∀ (resolve : Str → Str → Option Handler) (plugin c pfx : Str)
        (args : List Str) (opts : Dict) (src : NickMask) (public : Bool)
        (h : Handler) (msg dest : Str),
        resolve plugin (pfx ++ c) = some h →
        ¬ args.length < minArgsOfUsage h.usage →
        h.run ⟨args, opts, src, public, h.usage⟩ =
          .error (PyExc.validationError msg dest) →
        execTier resolve plugin (some c) pfx args opts src public =
          .ok (Reply.item (RItem.tup dest msg)))
    ∧ (∀ (resolve : Str → Str → Option Handler) (plugin c pfx : Str)
        (args : List Str) (opts : Dict) (src : NickMask) (public : Bool)
        (h : Handler) (nm : Str),
        resolve plugin (pfx ++ c) = some h →
        ¬ args.length < minArgsOfUsage h.usage →
        h.run ⟨args, opts, src, public, h.usage⟩ =
          .error (PyExc.otherExc nm) →
        execTier resolve plugin (some c) pfx args opts src public =
          .ok (unknownErrorReplyFor public)) := by
  refine ⟨?_, ?_, ?_, ?_⟩
  · intro loaded resolve authCheck authAdmin helpExec tokens src public
    cases hpa : parseCommandArguments loaded (parseCommandString tokens).1 with
    | none => exact ⟨Reply.pyNone, by simp [executeTokens, hpa]⟩
    | some pa =>
        by_cases hh : pa.helpCommand
        · exact ⟨helpExec pa.plugin pa.command, by simp [executeTokens, hpa, hh]⟩
        · obtain ⟨a, ha⟩ := execTier_isOk resolve pa.plugin pa.command
            (strL "admin_command_") pa.args (parseCommandString tokens).2 src public
          obtain ⟨u, hu⟩ := execTier_isOk resolve pa.plugin pa.command
            (strL "user_command_") pa.args (parseCommandString tokens).2 src public
          obtain ⟨p, hp2⟩ := execTier_isOk resolve pa.plugin pa.command
            (strL "command_") pa.args (parseCommandString tokens).2 src public
          by_cases hac : authCheck src.host
          · by_cases had : authAdmin src.host
            · refine ⟨if a.truthy then a else if u.truthy then u else p, ?_⟩
              simp only [executeTokens, hpa, hh, hac, had, firstTruthy,
                if_true, if_false, Bool.false_eq_true, ha, hu, hp2]
              by_cases hta : a.truthy <;> by_cases htu : u.truthy <;>
                simp [hta, htu]
            · refine ⟨if u.truthy then u else p, ?_⟩
              simp only [executeTokens, hpa, hh, hac, had, firstTruthy,
                if_true, if_false, Bool.false_eq_true, hu, hp2]
              by_cases htu : u.truthy <;> simp [htu]
          · exact ⟨p, by simp [executeTokens, hpa, hh, hac, hp2]⟩
  · intro resolve plugin c pfx args opts src public h kind msg dest
      hres hlen hrun
    simp [execTier, hres, hlen, hrun]
  · intro resolve plugin c pfx args opts src public h msg dest hres hlen hrun
    simp [execTier, hres, hlen, hrun]
  · intro resolve plugin c pfx args opts src public h nm hres hlen hrun
    simp [execTier, hres, hlen, hrun]

/-- Witness for C1: a permission-denied error raised at the bare command
tier becomes the tuple reply of the exception, and a plain execution of a
full token list returns a reply value. -/
theorem nano_c1_witness :
    execTier
        (fun _ m =>
          if m = strL "command_go" then
            some ⟨none, fun _ => .error (PyExc.commandError
              CmdErrKind.permDenied (strL "denied") (strL "private_message"))⟩
          else none)
        (strL "a") (some (strL "go")) (strL "command_") [] []
        ⟨strL "nick", strL "host"⟩ false =
      .ok (Reply.item (RItem.tup (strL "private_message") (strL "denied")))
    ∧ ∃ r, executeTokens (fun s => decide (s = strL "a"))
        (fun _ m =>
          if m = strL "command_go" then
            some ⟨none, fun _ => .error (PyExc.commandError
              CmdErrKind.permDenied (strL "denied") (strL "private_message"))⟩
          else none)
        (fun _ => false) (fun _ => false)
        (fun p2 _ => Reply.item (RItem.str p2)) [strL "a", strL "go"]
        ⟨strL "nick", strL "host"⟩ false = .ok r :=
  ⟨nano_c1_executor_error_handling.2.1
      (fun _ m =>
        if m = strL "command_go" then
          some ⟨none, fun _ => .error (PyExc.commandError
            CmdErrKind.permDenied (strL "denied") (strL "private_message"))⟩
        else none)
      (strL "a") (strL "go") (strL "command_") [] []
      ⟨strL "nick", strL "host"⟩ false
      ⟨none, fun _ => .error (PyExc.commandError CmdErrKind.permDenied
        (strL "denied") (strL "private_message"))⟩
      CmdErrKind.permDenied (strL "denied") (strL "private_message")
      rfl (by decide) rfl,
   nano_c1_executor_error_handling.1 (fun s => decide (s = strL "a"))
      (fun _ m =>
        if m = strL "command_go" then
          some ⟨none, fun _ => .error (PyExc.commandError
            CmdErrKind.permDenied (strL "denied") (strL "private_message"))⟩
        else none)
      (fun _ => false) (fun _ => false)
      (fun p2 _ => Reply.item (RItem.str p2)) [strL "a", strL "go"]
      ⟨strL "nick", strL "host"⟩ false⟩

/-- C4: (minimum-argument guard modelled from the spec) when the resolved
handler documents a syntax line, the required argument count is the number
of angle-bracket placeholder words of that line not wrapped in square
brackets, and an invocation supplying fewer positional arguments produces
the NotEnoughArgumentsError reply built by src/plugins/exceptions.py; the
handler body never runs, which the universal quantification over the body
expresses. -/
theorem nano_c4_min_args_guard
    (resolve : Str → Str → Option Handler) (plugin c pfx usage : Str)
    (run : CommandObj → Except PyExc Reply) (args : List Str) (opts : Dict)
    (src : NickMask) (public : Bool)
    (hres : resolve plugin (pfx ++ c) = some ⟨some usage, run⟩)
    (hlen : args.length < minArgsOfUsage (some usage)) :
    execTier resolve plugin (some c) pfx args opts src public =
      .ok (Reply.item (RItem.tup (errorDestination public)
        (notEnoughArgumentsMessage (some (minArgsOfUsage (some usage)))
          (some usage)))) := by
  simp [execTier, hres, hlen]

/-- Witness for C4: a handler documenting two required placeholders invoked
with one argument. -/
theorem nano_c4_witness :
    [strL "x"].length < minArgsOfUsage (some (strL "<a> <b>"))
    ∧ execTier
        (fun _ m =>
          if m = strL "command_go" then
            some ⟨some (strL "<a> <b>"),
              fun _ => .ok (Reply.item (RItem.str (strL "ran")))⟩
          else none)
        (strL "a") (some (strL "go")) (strL "command_") [strL "x"] []
        ⟨strL "nick", strL "host"⟩ true =
      .ok (Reply.item (RItem.tup (errorDestination true)
        (notEnoughArgumentsMessage
          (some (minArgsOfUsage (some (strL "<a> <b>"))))
          (some (strL "<a> <b>"))))) :=
  ⟨by decide,
   nano_c4_min_args_guard
     (fun _ m =>
       if m = strL "command_go" then
         some ⟨some (strL "<a> <b>"),
           fun _ => .ok (Reply.item (RItem.str (strL "ran")))⟩
       else none)
     (strL "a") (strL "go") (strL "command_") (strL "<a> <b>")
     (fun _ => .ok (Reply.item (RItem.str (strL "ran")))) [strL "x"] []
     ⟨strL "nick", strL "host"⟩ true rfl (by decide)⟩

/-- Counterexample to C6: a token carrying literal double quotes, as
`shlex.split` produces from a single-quoted wrapping in the raw command
string, does not yield the bare value: the greedy `(.+)` of the long option
pattern keeps the closing double quote in the stored value (only the opening
quote is stripped), so the option is the value with a trailing quote. -/
theorem nano_c6_counterexample :
    parseCommandString [strL "--name=\"value\""] =
      ([], [(strL "name", OptVal.str (strL "value\""))])
    ∧ dictGet (parseCommandString [strL "--name=\"value\""]).2 (strL "name") ≠
      some (OptVal.str (strL "value")) := by
  constructor <;> decide
